import Mathlib

/-!
Shallow embedding of the client-side logic of the AiImpactAnalyzer frontend:
the search/filter/pagination pipeline of the Coverage and Repositories pages,
the add/edit form submit handlers, and the shared reducer / fetch wrapper of
`AnalysisContext.jsx` with the Navbar's error banner.

JavaScript strings are modelled as `List Char`; `toLowerCase` as a `Char.toLower`
map (an ASCII approximation of the JS Unicode mapping, sufficient here since no
claim depends on non-ASCII case folding); `String.prototype.includes` as
the decidable contiguous-sublist relation; `Array.prototype.slice` as drop/take.
-/

namespace AiImpact

/-- JavaScript string values, as lists of characters. -/
abbrev JStr := List Char

/-- `s.toLowerCase()` on a JS string. -/
def jsToLower (s : JStr) : JStr := s.map Char.toLower

/-- `s.includes(sub)` on JS strings: `sub` occurs contiguously in `s`. -/
def jsIncludes (s sub : JStr) : Bool := decide (sub <:+: s)

/-- `a || b` on JS strings, where the empty string is the only falsy string:
the value is `a` unless `a` is empty, in which case it is `b`. -/
def jsOrStr (a b : JStr) : JStr := if a = [] then b else a

/-- A JS value that is sometimes a number and sometimes a string (the
`coveragePercentage` field holds mock numbers but form-submitted strings). -/
inductive NumOrStr where
  | num (n : Nat)
  | str (s : JStr)
deriving DecidableEq, Repr

/-- A coverage-mapping record as held by the Coverage page (`Coverage.jsx`):
mock records carry a numeric `coveragePercentage` and form-submitted ones carry
the form's string. -/
structure Mapping where
  id : Nat
  filePath : JStr
  testFilePath : JStr
  testFunctionName : JStr
  coveragePercentage : NumOrStr
  priority : JStr
  lastUpdated : JStr
  status : JStr
deriving DecidableEq, Repr

/-- The Coverage page's `formData` state (`Coverage.jsx` lines 28-35): all
fields are strings bound to form inputs. -/
structure MappingForm where
  filePath : JStr
  testFilePath : JStr
  testFunctionName : JStr
  coveragePercentage : JStr
  priority : JStr
  lastUpdated : JStr
deriving DecidableEq, Repr

/-- A repository record as held by the Repositories page. The numeric stat
fields and `lastCommit` are `Option`s because the edit branch of
`handleSubmit` spreads only `formData` plus `id`, leaving them `undefined`
(modelled as `none`); mock and freshly added records have them present. -/
structure Repo where
  id : Nat
  name : JStr
  url : JStr
  description : JStr
  language : JStr
  status : JStr
  branch : JStr
  lastSync : JStr
  stars : Option Nat
  forks : Option Nat
  issues : Option Nat
  pullRequests : Option Nat
  coverage : Option Nat
  lastCommit : Option JStr
deriving DecidableEq, Repr

/-- The Repositories page's `formData` state: all fields are strings bound to
form inputs. -/
structure RepoForm where
  name : JStr
  url : JStr
  description : JStr
  language : JStr
  status : JStr
  branch : JStr
  lastSync : JStr
deriving DecidableEq, Repr

/-- The search predicate inside `filteredMappings` (`Coverage.jsx` 176-179):
case-insensitive substring match of the search term against `filePath`,
`testFilePath` and `testFunctionName`. -/
def mappingMatchesSearch (searchTerm : JStr) (mapping : Mapping) : Bool :=
  jsIncludes (jsToLower mapping.filePath) (jsToLower searchTerm) ||
  jsIncludes (jsToLower mapping.testFilePath) (jsToLower searchTerm) ||
  jsIncludes (jsToLower mapping.testFunctionName) (jsToLower searchTerm)

/-- The priority-select predicate inside `filteredMappings` (`Coverage.jsx`
line 181): `filterType === 'all' || mapping.priority === filterType`. -/
def mappingMatchesFilter (filterType : JStr) (mapping : Mapping) : Bool :=
  filterType == "all".toList || mapping.priority == filterType

/-- `filteredMappings` (`Coverage.jsx` 175-184): records passing both the
search match and the priority filter. -/
def filteredMappings (mappings : List Mapping) (searchTerm filterType : JStr) :
    List Mapping :=
  mappings.filter fun mapping =>
    mappingMatchesSearch searchTerm mapping && mappingMatchesFilter filterType mapping

/-- The search predicate inside `filteredRepositories`
(`AnalysisContext.jsx` document, Repositories page, lines 470-473):
case-insensitive substring match against `name`, `description`, `language`. -/
def repoMatchesSearch (searchTerm : JStr) (repo : Repo) : Bool :=
  jsIncludes (jsToLower repo.name) (jsToLower searchTerm) ||
  jsIncludes (jsToLower repo.description) (jsToLower searchTerm) ||
  jsIncludes (jsToLower repo.language) (jsToLower searchTerm)

/-- The status-select predicate inside `filteredRepositories` (line 475):
`filterStatus === 'all' || repo.status === filterStatus`. -/
def repoMatchesFilter (filterStatus : JStr) (repo : Repo) : Bool :=
  filterStatus == "all".toList || repo.status == filterStatus

/-- `filteredRepositories` (Repositories page, lines 469-478). -/
def filteredRepositories (repositories : List Repo) (searchTerm filterStatus : JStr) :
    List Repo :=
  repositories.filter fun repo =>
    repoMatchesSearch searchTerm repo && repoMatchesFilter filterStatus repo

/-- `arr.slice(start, stop)` on a JS array, for natural `start ≤ stop`:
the elements at indices `start` up to (excluding) `stop`. -/
def jsSlice (l : List α) (start stop : Nat) : List α :=
  (l.drop start).take (stop - start)

/-- `Math.ceil(n / itemsPerPage)` on naturals. -/
def totalPages (n itemsPerPage : Nat) : Nat :=
  (n + itemsPerPage - 1) / itemsPerPage

/-- The page slice `filtered.slice((currentPage - 1) * itemsPerPage,
currentPage * itemsPerPage)` shared by both pages. -/
def paginate (l : List α) (itemsPerPage currentPage : Nat) : List α :=
  jsSlice l ((currentPage - 1) * itemsPerPage) (currentPage * itemsPerPage)

/-- `paginatedMappings` (`Coverage.jsx` 186-191); `itemsPerPage` is 10. -/
def paginatedMappings (filtered : List Mapping) (currentPage : Nat) : List Mapping :=
  paginate filtered 10 currentPage

/-- `paginatedRepositories` (Repositories page, 480-485); `itemsPerPage` is 8. -/
def paginatedRepositories (filtered : List Repo) (currentPage : Nat) : List Repo :=
  paginate filtered 8 currentPage

/-- The record built by the edit/create branches of the Coverage page's
`handleSubmit` (`Coverage.jsx` 100-123): `{ ...formData, id, status: 'active' }`. -/
def mappingFromForm (f : MappingForm) (id : Nat) : Mapping :=
  { id := id
    filePath := f.filePath
    testFilePath := f.testFilePath
    testFunctionName := f.testFunctionName
    coveragePercentage := NumOrStr.str f.coveragePercentage
    priority := f.priority
    lastUpdated := f.lastUpdated
    status := "active".toList }

/-- The Coverage page's `handleSubmit` effect on the `mappings` list:
`editingMapping` set means the matching record is rebuilt from the form in
place; otherwise the new record (with `id: Date.now()`, passed as `now`) is
prepended. -/
def handleSubmitMappings (editingMapping : Option Mapping) (f : MappingForm)
    (now : Nat) (mappings : List Mapping) : List Mapping :=
  match editingMapping with
  | some em =>
      mappings.map fun mapping =>
        if mapping.id == em.id then mappingFromForm f mapping.id else mapping
  | none => mappingFromForm f now :: mappings

/-- The record built by the edit branch of the Repositories page's
`handleSubmit`: `{ ...formData, id: repo.id }` — the stat fields and
`lastCommit` are absent (`none`). -/
def repoFromFormEdit (f : RepoForm) (id : Nat) : Repo :=
  { id := id
    name := f.name
    url := f.url
    description := f.description
    language := f.language
    status := f.status
    branch := f.branch
    lastSync := f.lastSync
    stars := none
    forks := none
    issues := none
    pullRequests := none
    coverage := none
    lastCommit := none }

/-- The record built by the add branch of the Repositories page's
`handleSubmit`: form data plus `id: Date.now()`, zeroed stats and
`lastCommit: 'Just now'`. -/
def repoFromFormAdd (f : RepoForm) (now : Nat) : Repo :=
  { id := now
    name := f.name
    url := f.url
    description := f.description
    language := f.language
    status := f.status
    branch := f.branch
    lastSync := f.lastSync
    stars := some 0
    forks := some 0
    issues := some 0
    pullRequests := some 0
    coverage := some 0
    lastCommit := some "Just now".toList }

/-- The Repositories page's `handleSubmit` effect on the `repositories` list
(lines 359-387). -/
def handleSubmitRepositories (editingRepo : Option Repo) (f : RepoForm)
    (now : Nat) (repositories : List Repo) : List Repo :=
  match editingRepo with
  | some er =>
      repositories.map fun repo =>
        if repo.id == er.id then repoFromFormEdit f repo.id else repo
  | none => repoFromFormAdd f now :: repositories

/-- The `stats` sub-record of the context's `initialState`
(`AnalysisContext.jsx` 12-17), parametric in the number type `N`. -/
structure Stats (N : Type) where
  totalAnalyses : N
  totalTimeSaved : N
  averageRiskScore : N
  totalTestsSelected : N
deriving DecidableEq, Repr

/-- A partial stats object, as returned by the `/api/v1/metrics` endpoint and
spread over the existing `stats` by `UPDATE_STATS`: each field may be absent. -/
structure PartialStats (N : Type) where
  totalAnalyses : Option N
  totalTimeSaved : Option N
  averageRiskScore : Option N
  totalTestsSelected : Option N
deriving DecidableEq, Repr

/-- `{ ...state.stats, ...action.payload }`: fields present in the payload
override the existing ones, absent fields keep their prior values. -/
def mergeStats {N : Type} (s : Stats N) (p : PartialStats N) : Stats N :=
  { totalAnalyses := p.totalAnalyses.getD s.totalAnalyses
    totalTimeSaved := p.totalTimeSaved.getD s.totalTimeSaved
    averageRiskScore := p.averageRiskScore.getD s.averageRiskScore
    totalTestsSelected := p.totalTestsSelected.getD s.totalTestsSelected }

/-- The reducer state of `AnalysisContext.jsx` (lines 5-18), parametric in the
payload types: `A` analysis records, `R` repository records, `M`
coverage-mapping records, `N` stat numbers. -/
structure AppState (A R M N : Type) where
  analyses : List A
  currentAnalysis : Option A
  loading : Bool
  error : Option JStr
  repositories : List R
  coverageMappings : List M
  stats : Stats N
deriving DecidableEq, Repr

/-- The nine action shapes handled by `analysisReducer`, plus `unknown` for any
action object whose `type` string is none of the nine handled type strings. -/
inductive Action (A R M N : Type) where
  | setLoading (payload : Bool)
  | setError (payload : JStr)
  | clearError
  | setAnalyses (payload : List A)
  | addAnalysis (payload : A)
  | setCurrentAnalysis (payload : Option A)
  | setRepositories (payload : List R)
  | setCoverageMappings (payload : List M)
  | updateStats (payload : PartialStats N)
  | unknown (ty : JStr)
deriving DecidableEq, Repr

variable {A R M N : Type}

/-- `analysisReducer` (`AnalysisContext.jsx` 20-56), case by case. -/
def analysisReducer (state : AppState A R M N) (action : Action A R M N) :
    AppState A R M N :=
  match action with
  | .setLoading b => { state with loading := b }
  | .setError msg => { state with error := some msg, loading := false }
  | .clearError => { state with error := none }
  | .setAnalyses l => { state with analyses := l }
  | .addAnalysis a =>
      { state with analyses := a :: state.analyses, currentAnalysis := some a }
  | .setCurrentAnalysis a => { state with currentAnalysis := a }
  | .setRepositories l => { state with repositories := l }
  | .setCoverageMappings l => { state with coverageMappings := l }
  | .updateStats p => { state with stats := mergeStats state.stats p }
  | .unknown _ => state

/-- `initialState` (`AnalysisContext.jsx` 5-18), with `N := Nat` for the four
zero-valued stats. -/
def initialState : AppState A R M Nat :=
  { analyses := []
    currentAnalysis := none
    loading := false
    error := none
    repositories := []
    coverageMappings := []
    stats := { totalAnalyses := 0, totalTimeSaved := 0, averageRiskScore := 0,
               totalTestsSelected := 0 } }

/-- Dispatching a sequence of actions through the reducer, in order. -/
def runActions (state : AppState A R M N) (actions : List (Action A R M N)) :
    AppState A R M N :=
  actions.foldl analysisReducer state

/-- The possible outcomes of one `fetch`-and-parse cycle inside `apiCall`
(`AnalysisContext.jsx` 63-89), with `D` the type of the parsed JSON body:
the fetch promise rejects (network failure) with the thrown error's message;
the response arrives with `ok` false and a status code; the body fails to
parse, `response.json()` rejecting with the thrown error's message; or the
parsed body is returned. -/
inductive FetchOutcome (D : Type) where
  | reject (msg : JStr)
  | notOk (status : Nat)
  | jsonError (msg : JStr)
  | ok (data : D)
deriving DecidableEq, Repr

/-- The message of the error thrown inside `apiCall`'s `try` block, when the
outcome is a failure: a non-ok response throws
`new Error('HTTP error! status: ' + status)`, the other failures propagate the
underlying error's message. `none` for a successful outcome. -/
def thrownMessage {D : Type} : FetchOutcome D → Option JStr
  | .reject msg => some msg
  | .notOk status => some ("HTTP error! status: ".toList ++ (toString status).toList)
  | .jsonError msg => some msg
  | .ok _ => none

/-- The value `apiCall` resolves with: the parsed body on success, `none` when
it rethrows the caught error. -/
def apiCallResult {D : Type} : FetchOutcome D → Option D
  | .ok d => some d
  | _ => none

/-- The sequence of actions `apiCall` dispatches, in program order: first
`SET_LOADING true`, then `CLEAR_ERROR`, then — only in the catch branch —
`SET_ERROR` with the thrown error's message (`'An error occurred'` when that
message is the empty string, by JS `||`), and finally `SET_LOADING false` from
the `finally` block. -/
def apiCallTrace {D : Type} (outcome : FetchOutcome D) : List (Action A R M N) :=
  [.setLoading true, .clearError] ++
  (match thrownMessage outcome with
   | some msg => [.setError (jsOrStr msg "An error occurred".toList)]
   | none => []) ++
  [.setLoading false]

/-- The actions dispatched by one `getAnalyses()` call (`AnalysisContext.jsx`
106-115): the `apiCall` actions, then `SET_ANALYSES` with the parsed body on
success; the catch branch only logs and rethrows. -/
def getAnalysesTrace (outcome : FetchOutcome (List A)) : List (Action A R M N) :=
  apiCallTrace outcome ++
  (match outcome with
   | .ok data => [.setAnalyses data]
   | _ => [])

/-- The actions dispatched by one `getRepositories()` call (117-126). -/
def getRepositoriesTrace (outcome : FetchOutcome (List R)) :
    List (Action A R M N) :=
  apiCallTrace outcome ++
  (match outcome with
   | .ok data => [.setRepositories data]
   | _ => [])

/-- The actions dispatched by one `getCoverageMappings()` call (128-137). -/
def getCoverageMappingsTrace (outcome : FetchOutcome (List M)) :
    List (Action A R M N) :=
  apiCallTrace outcome ++
  (match outcome with
   | .ok data => [.setCoverageMappings data]
   | _ => [])

/-- The actions dispatched by one `getMetrics()` call (165-174): the parsed
body is spread into `stats` via `UPDATE_STATS`. -/
def getMetricsTrace (outcome : FetchOutcome (PartialStats N)) :
    List (Action A R M N) :=
  apiCallTrace outcome ++
  (match outcome with
   | .ok data => [.updateStats data]
   | _ => [])

/-- The Navbar's error banner (`Navbar.jsx`): rendered exactly when `error` is
non-null, displaying the stored message string. -/
def navbarBanner (state : AppState A R M N) : Option JStr :=
  match state.error with
  | some msg => some msg
  | none => none

/-- The context's `clearError` callback: dispatches `CLEAR_ERROR`. -/
def clearError (state : AppState A R M N) : AppState A R M N :=
  analysisReducer state .clearError

/-- The first record of the Coverage page's `mockMappings` array. -/
def sampleMapping : Mapping :=
  { id := 1
    filePath := "src/components/Button.jsx".toList
    testFilePath := "src/components/__tests__/Button.test.jsx".toList
    testFunctionName := "Button component tests".toList
    coveragePercentage := .num 95
    priority := "high".toList
    lastUpdated := "2024-01-15".toList
    status := "active".toList }

/-- The first record of the Repositories page's `mockRepositories` array. -/
def sampleRepo : Repo :=
  { id := 1
    name := "frontend-app".toList
    url := "https://github.com/company/frontend-app".toList
    description := "React-based frontend application with modern UI components".toList
    language := "JavaScript".toList
    status := "active".toList
    branch := "main".toList
    lastSync := "2024-01-15".toList
    stars := some 45
    forks := some 12
    issues := some 3
    pullRequests := some 7
    coverage := some 87
    lastCommit := some "2 hours ago".toList }

/-- A concrete filled-in Coverage form. -/
def sampleMappingForm : MappingForm :=
  { filePath := "src/utils/math.js".toList
    testFilePath := "src/utils/__tests__/math.test.js".toList
    testFunctionName := "math helpers".toList
    coveragePercentage := "80".toList
    priority := "low".toList
    lastUpdated := "2024-02-01".toList }

/-- A concrete filled-in Repositories form. -/
def sampleRepoForm : RepoForm :=
  { name := "docs-site".toList
    url := "https://github.com/company/docs-site".toList
    description := "Static documentation site".toList
    language := "TypeScript".toList
    status := "inactive".toList
    branch := "main".toList
    lastSync := "2024-02-01".toList }

/-- Two reducer states agree on every data field (everything except the
`loading` and `error` flags). -/
def dataFieldsEq (s t : AppState A R M N) : Prop :=
  t.analyses = s.analyses ∧ t.currentAnalysis = s.currentAnalysis ∧
  t.repositories = s.repositories ∧ t.coverageMappings = s.coverageMappings ∧
  t.stats = s.stats

lemma jsIncludes_eq_true {s sub : JStr} : jsIncludes s sub = true ↔ sub <:+: s := by
  simp [jsIncludes]

lemma mem_filteredMappings_iff {mappings : List Mapping} {term fv : JStr}
    {m : Mapping} :
    m ∈ filteredMappings mappings term fv ↔
      m ∈ mappings ∧
        (jsToLower term <:+: jsToLower m.filePath ∨
         jsToLower term <:+: jsToLower m.testFilePath ∨
         jsToLower term <:+: jsToLower m.testFunctionName) ∧
        (fv = "all".toList ∨ m.priority = fv) := by
  simp only [filteredMappings, List.mem_filter, mappingMatchesSearch,
    mappingMatchesFilter, jsIncludes, Bool.and_eq_true, Bool.or_eq_true,
    decide_eq_true_eq, beq_iff_eq]
  tauto

lemma mem_filteredRepositories_iff {repos : List Repo} {term fv : JStr}
    {r : Repo} :
    r ∈ filteredRepositories repos term fv ↔
      r ∈ repos ∧
        (jsToLower term <:+: jsToLower r.name ∨
         jsToLower term <:+: jsToLower r.description ∨
         jsToLower term <:+: jsToLower r.language) ∧
        (fv = "all".toList ∨ r.status = fv) := by
  simp only [filteredRepositories, List.mem_filter, repoMatchesSearch,
    repoMatchesFilter, jsIncludes, Bool.and_eq_true, Bool.or_eq_true,
    decide_eq_true_eq, beq_iff_eq]
  tauto

/-- C1: the search term always narrows the visible list case-insensitively —
every record in the filtered list (for any select-filter value) has the
lowercased term as a substring of at least one of its searched text fields,
and with the select filter in its default `'all'` state a record is in the
filtered list exactly when it is in the input list and some searched field
contains the term case-insensitively. -/
theorem filtered_mem_iff_search_match :
    ∀ (mappings : List Mapping) (repos : List Repo) (term filterValue : JStr)
      (m : Mapping) (r : Repo),
      (m ∈ filteredMappings mappings term filterValue →
        (jsToLower term <:+: jsToLower m.filePath ∨
         jsToLower term <:+: jsToLower m.testFilePath ∨
         jsToLower term <:+: jsToLower m.testFunctionName)) ∧
      (m ∈ filteredMappings mappings term "all".toList ↔
        m ∈ mappings ∧
          (jsToLower term <:+: jsToLower m.filePath ∨
           jsToLower term <:+: jsToLower m.testFilePath ∨
           jsToLower term <:+: jsToLower m.testFunctionName)) ∧
      (r ∈ filteredRepositories repos term filterValue →
        (jsToLower term <:+: jsToLower r.name ∨
         jsToLower term <:+: jsToLower r.description ∨
         jsToLower term <:+: jsToLower r.language)) ∧
      (r ∈ filteredRepositories repos term "all".toList ↔
        r ∈ repos ∧
          (jsToLower term <:+: jsToLower r.name ∨
           jsToLower term <:+: jsToLower r.description ∨
           jsToLower term <:+: jsToLower r.language)) := by
  intro mappings repos term fv m r
  refine ⟨fun h => (mem_filteredMappings_iff.mp h).2.1, ?_,
    fun h => (mem_filteredRepositories_iff.mp h).2.1, ?_⟩
  · rw [mem_filteredMappings_iff]
    tauto
  · rw [mem_filteredRepositories_iff]
    tauto

/-- C1 witness: the mock mapping is found by the case-insensitive search
`'button'` against its file path `src/components/Button.jsx`, and the mock
repository by `'FRONTEND'` against its name `frontend-app`. -/
theorem filtered_mem_iff_search_match_witness :
    sampleMapping ∈ filteredMappings [sampleMapping] "button".toList "all".toList ∧
    sampleRepo ∈ filteredRepositories [sampleRepo] "FRONTEND".toList "all".toList :=
  ⟨(filtered_mem_iff_search_match [sampleMapping] [sampleRepo] "button".toList
      "all".toList sampleMapping sampleRepo).2.1.mpr
      ⟨by simp, Or.inl (by decide)⟩,
   (filtered_mem_iff_search_match [sampleMapping] [sampleRepo] "FRONTEND".toList
      "all".toList sampleMapping sampleRepo).2.2.2.mpr
      ⟨by simp, Or.inl (by decide)⟩⟩

/-- C2: selecting a non-`'all'` filter value yields a subset of the input list
on which the filtered field (priority for Coverage, status for Repositories)
equals the selected value. -/
theorem nonall_filter_subset_field_eq :
    ∀ (term v : JStr) (mappings : List Mapping) (repos : List Repo),
      v ≠ "all".toList →
      (∀ m ∈ filteredMappings mappings term v, m.priority = v) ∧
      filteredMappings mappings term v ⊆ mappings ∧
      (∀ r ∈ filteredRepositories repos term v, r.status = v) ∧
      filteredRepositories repos term v ⊆ repos := by
  intro term v mappings repos hv
  refine ⟨fun m hm => ?_, List.filter_subset' _, fun r hr => ?_,
    List.filter_subset' _⟩
  · rcases (mem_filteredMappings_iff.mp hm).2.2 with h | h
    · exact absurd h hv
    · exact h
  · rcases (mem_filteredRepositories_iff.mp hr).2.2 with h | h
    · exact absurd h hv
    · exact h

/-- C2 witness: at the concrete selections `'high'` / `'active'` (both distinct
from `'all'`), the mock records pass the filter and carry exactly the selected
field values. -/
theorem nonall_filter_subset_field_eq_witness :
    ("high".toList : JStr) ≠ "all".toList ∧
    sampleMapping.priority = "high".toList ∧
    ("active".toList : JStr) ≠ "all".toList ∧
    sampleRepo.status = "active".toList :=
  ⟨by decide,
   (nonall_filter_subset_field_eq [] "high".toList [sampleMapping] []
      (by decide)).1 sampleMapping (by decide),
   by decide,
   (nonall_filter_subset_field_eq [] "active".toList [] [sampleRepo]
      (by decide)).2.2.1 sampleRepo (by decide)⟩

lemma totalPages_mul_bounds {n ipp : Nat} (hipp : 0 < ipp) :
    n ≤ totalPages n ipp * ipp ∧ (0 < n → totalPages n ipp * ipp - ipp < n) := by
  have e1 := Nat.div_add_mod (n + ipp - 1) ipp
  have e2 := Nat.mod_lt (n + ipp - 1) hipp
  unfold totalPages
  rw [Nat.mul_comm] at e1
  generalize hr : (n + ipp - 1) % ipp = r at *
  generalize hP : (n + ipp - 1) / ipp * ipp = P at *
  omega

lemma totalPages_pos_of_page {n ipp p : Nat} (hipp : 0 < ipp) (hp : 1 ≤ p)
    (hple : p ≤ totalPages n ipp) : 0 < n := by
  by_contra h
  have hn : n = 0 := by omega
  subst hn
  unfold totalPages at hple
  rw [Nat.div_eq_of_lt (by omega)] at hple
  omega

lemma paginate_length_eq (l : List α) (ipp p : Nat) :
    (paginate l ipp p).length =
      min (p * ipp - (p - 1) * ipp) (l.length - (p - 1) * ipp) := by
  simp [paginate, jsSlice]

lemma paginate_length_le (l : List α) (ipp p : Nat) :
    (paginate l ipp p).length ≤ ipp := by
  rw [paginate_length_eq]
  have h : p * ipp ≤ ((p - 1) + 1) * ipp := Nat.mul_le_mul_right _ (by omega)
  rw [Nat.succ_mul] at h
  omega

lemma paginate_last_length (l : List α) (ipp : Nat) (hipp : 0 < ipp)
    (hn : 0 < l.length) :
    (paginate l ipp (totalPages l.length ipp)).length =
      l.length - (totalPages l.length ipp - 1) * ipp := by
  obtain ⟨h1, h2⟩ := totalPages_mul_bounds (n := l.length) hipp
  have h2' := h2 hn
  have htp : 1 ≤ totalPages l.length ipp := by
    by_contra h
    have : totalPages l.length ipp = 0 := by omega
    rw [this] at h1
    omega
  rw [paginate_length_eq, Nat.sub_one_mul]
  generalize hP : totalPages l.length ipp * ipp = P at *
  have hipP : ipp ≤ P := by
    calc ipp = 1 * ipp := (Nat.one_mul ipp).symm
    _ ≤ totalPages l.length ipp * ipp := Nat.mul_le_mul_right _ htp
    _ = P := hP
  omega

lemma paginate_join_take (l : List α) (ipp : Nat) (m : Nat) :
    ((List.range m).map fun i => paginate l ipp (i + 1)).flatten =
      l.take (m * ipp) := by
  induction m with
  | zero => simp
  | succ k ih =>
      rw [List.range_succ, List.map_append, List.flatten_append, ih]
      simp only [List.map_cons, List.map_nil, List.flatten_cons, List.flatten_nil,
        List.append_nil]
      have hpag : paginate l ipp (k + 1) = (l.drop (k * ipp)).take ipp := by
        simp [paginate, jsSlice, Nat.succ_mul]
      rw [hpag, Nat.succ_mul, List.take_add]

lemma paginate_join (l : List α) (ipp : Nat) (hipp : 0 < ipp) :
    ((List.range (totalPages l.length ipp)).map
      fun i => paginate l ipp (i + 1)).flatten = l := by
  rw [paginate_join_take]
  exact List.take_of_length_le (totalPages_mul_bounds hipp).1

lemma paginate_eq_nil_of_gt (l : List α) (ipp p : Nat) (hipp : 0 < ipp)
    (h : totalPages l.length ipp < p) : paginate l ipp p = [] := by
  have hn : l.length ≤ (p - 1) * ipp :=
    le_trans (totalPages_mul_bounds hipp).1 (Nat.mul_le_mul_right _ (by omega))
  simp [paginate, jsSlice, List.drop_eq_nil_of_le hn]

/-- C3: for every page number between 1 and the total page count, the
displayed slice has length at most the configured page size (10 for Coverage,
8 for Repositories), and on the last page its length is exactly the remainder
`n - (totalPages - 1) * itemsPerPage`. -/
theorem paginate_length_bound_and_last_page :
    ∀ (lm : List Mapping) (lr : List Repo) (p q : Nat),
      1 ≤ p → p ≤ totalPages lm.length 10 →
      1 ≤ q → q ≤ totalPages lr.length 8 →
      (paginatedMappings lm p).length ≤ 10 ∧
      (p = totalPages lm.length 10 →
        (paginatedMappings lm p).length =
          lm.length - (totalPages lm.length 10 - 1) * 10) ∧
      (paginatedRepositories lr q).length ≤ 8 ∧
      (q = totalPages lr.length 8 →
        (paginatedRepositories lr q).length =
          lr.length - (totalPages lr.length 8 - 1) * 8) := by
  intro lm lr p q hp1 hp2 hq1 hq2
  refine ⟨paginate_length_le lm 10 p, fun hlast => ?_,
    paginate_length_le lr 8 q, fun hlast => ?_⟩
  · subst hlast
    exact paginate_last_length lm 10 (by omega)
      (totalPages_pos_of_page (by omega) hp1 hp2)
  · subst hlast
    exact paginate_last_length lr 8 (by omega)
      (totalPages_pos_of_page (by omega) hq1 hq2)

/-- C3 witness: with one record each, page 1 is the (only and) last page and
shows exactly the one remaining record on both pages. -/
theorem paginate_length_bound_and_last_page_witness :
    (1 : Nat) ≤ totalPages ([sampleMapping] : List Mapping).length 10 ∧
    (1 : Nat) ≤ totalPages ([sampleRepo] : List Repo).length 8 ∧
    (paginatedMappings [sampleMapping] 1).length =
      ([sampleMapping] : List Mapping).length -
        (totalPages ([sampleMapping] : List Mapping).length 10 - 1) * 10 ∧
    (paginatedRepositories [sampleRepo] 1).length =
      ([sampleRepo] : List Repo).length -
        (totalPages ([sampleRepo] : List Repo).length 8 - 1) * 8 := by
  have h := paginate_length_bound_and_last_page [sampleMapping] [sampleRepo] 1 1
    (by decide) (by decide) (by decide) (by decide)
  exact ⟨by decide, by decide, h.2.1 (by decide), h.2.2.2 (by decide)⟩

/-- C10: the page slices partition the filtered list — concatenating the
slices of pages 1 through `totalPages` in page order yields exactly the
filtered list (so each record appears on exactly one page, in order), and any
page number beyond `totalPages` yields an empty slice. -/
theorem paginate_partition :
    ∀ (lm : List Mapping) (lr : List Repo),
      ((List.range (totalPages lm.length 10)).map
        fun i => paginatedMappings lm (i + 1)).flatten = lm ∧
      (∀ p, totalPages lm.length 10 < p → paginatedMappings lm p = []) ∧
      ((List.range (totalPages lr.length 8)).map
        fun i => paginatedRepositories lr (i + 1)).flatten = lr ∧
      (∀ q, totalPages lr.length 8 < q → paginatedRepositories lr q = []) := by
  intro lm lr
  exact ⟨paginate_join lm 10 (by omega),
    fun p hp => paginate_eq_nil_of_gt lm 10 p (by omega) hp,
    paginate_join lr 8 (by omega),
    fun q hq => paginate_eq_nil_of_gt lr 8 q (by omega) hq⟩

/-- C10 witness: with one record, page 1 carries the whole list and page 2 is
empty, on both pages. -/
theorem paginate_partition_witness :
    paginatedMappings [sampleMapping] 2 = [] ∧
    paginatedRepositories [sampleRepo] 2 = [] ∧
    ((List.range (totalPages ([sampleMapping] : List Mapping).length 10)).map
      fun i => paginatedMappings [sampleMapping] (i + 1)).flatten = [sampleMapping] :=
  ⟨(paginate_partition [sampleMapping] [sampleRepo]).2.1 2 (by decide),
   (paginate_partition [sampleMapping] [sampleRepo]).2.2.2 2 (by decide),
   (paginate_partition [sampleMapping] [sampleRepo]).1⟩

lemma forall₂_map_self {α β : Type _} (f : α → β) (r : α → β → Prop)
    (l : List α) (h : ∀ a ∈ l, r a (f a)) : List.Forall₂ r l (l.map f) := by
  induction l with
  | nil => simp
  | cons a t ih =>
      rw [List.map_cons]
      exact List.Forall₂.cons (h a (List.mem_cons_self a t))
        (ih fun x hx => h x (List.mem_cons_of_mem a hx))

/-- C4: submitting the form in add mode (no editing target) produces a list one
longer, with the new record prepended; in edit mode the list keeps its length
and each position holds either the original record (id differing from the
edited record's id) or the form-rebuilt record with the original id preserved. -/
theorem handleSubmit_add_prepends_edit_replaces :
    ∀ (f : MappingForm) (g : RepoForm) (now : Nat)
      (lm : List Mapping) (lr : List Repo) (em : Mapping) (er : Repo),
      (handleSubmitMappings none f now lm).length = lm.length + 1 ∧
      handleSubmitMappings none f now lm = mappingFromForm f now :: lm ∧
      (handleSubmitMappings (some em) f now lm).length = lm.length ∧
      List.Forall₂ (fun old new =>
          new.id = old.id ∧
          (old.id = em.id → new = mappingFromForm f old.id) ∧
          (old.id ≠ em.id → new = old))
        lm (handleSubmitMappings (some em) f now lm) ∧
      (handleSubmitRepositories none g now lr).length = lr.length + 1 ∧
      handleSubmitRepositories none g now lr = repoFromFormAdd g now :: lr ∧
      (handleSubmitRepositories (some er) g now lr).length = lr.length ∧
      List.Forall₂ (fun old new =>
          new.id = old.id ∧
          (old.id = er.id → new = repoFromFormEdit g old.id) ∧
          (old.id ≠ er.id → new = old))
        lr (handleSubmitRepositories (some er) g now lr) := by
  intro f g now lm lr em er
  refine ⟨by simp [handleSubmitMappings], rfl,
    by simp [handleSubmitMappings], ?_,
    by simp [handleSubmitRepositories], rfl,
    by simp [handleSubmitRepositories], ?_⟩
  · exact forall₂_map_self _ _ _ fun m _ => by
      by_cases h : m.id = em.id
      · simp [h, mappingFromForm]
      · simp [h]
  · exact forall₂_map_self _ _ _ fun r _ => by
      by_cases h : r.id = er.id
      · simp [h, repoFromFormEdit]
      · simp [h]

/-- C4 witness: on a one-record list, add mode gives two records and edit mode
keeps one, on both pages. -/
theorem handleSubmit_add_prepends_edit_replaces_witness :
    (handleSubmitMappings none sampleMappingForm 99 [sampleMapping]).length = 2 ∧
    (handleSubmitMappings (some sampleMapping) sampleMappingForm 99
      [sampleMapping]).length = 1 ∧
    (handleSubmitRepositories none sampleRepoForm 99 [sampleRepo]).length = 2 ∧
    (handleSubmitRepositories (some sampleRepo) sampleRepoForm 99
      [sampleRepo]).length = 1 := by
  have h := handleSubmit_add_prepends_edit_replaces sampleMappingForm
    sampleRepoForm 99 [sampleMapping] [sampleRepo] sampleMapping sampleRepo
  exact ⟨h.1, h.2.2.1, h.2.2.2.2.1, h.2.2.2.2.2.2.1⟩

lemma apiCallTrace_eq_of_failure {A R M N D : Type} {outcome : FetchOutcome D}
    {msg : JStr} (h : thrownMessage outcome = some msg) :
    (apiCallTrace outcome : List (Action A R M N)) =
      [.setLoading true, .clearError,
       .setError (jsOrStr msg "An error occurred".toList), .setLoading false] := by
  unfold apiCallTrace
  rw [h]
  rfl

lemma runActions_apiCall_failure {A R M N D : Type} (s : AppState A R M N)
    {outcome : FetchOutcome D} {msg : JStr}
    (h : thrownMessage outcome = some msg) :
    runActions s (apiCallTrace outcome) =
      { s with error := some (jsOrStr msg "An error occurred".toList),
               loading := false } := by
  rw [apiCallTrace_eq_of_failure h]
  rfl

/-- C5: a failed request leaves the reducer state with `error` equal to the
thrown error's message (or `'An error occurred'` when that message is the
empty string), the Navbar renders that string while `error` is non-null, and
`clearError` resets `error` to null (hiding the banner). -/
theorem apiCall_failure_error_banner {A R M N D : Type} :
    ∀ (s : AppState A R M N) (outcome : FetchOutcome D) (msg : JStr),
      thrownMessage outcome = some msg →
      (runActions s (apiCallTrace outcome)).error =
        some (jsOrStr msg "An error occurred".toList) ∧
      (msg = [] →
        (runActions s (apiCallTrace outcome)).error =
          some "An error occurred".toList) ∧
      navbarBanner (runActions s (apiCallTrace outcome)) =
        some (jsOrStr msg "An error occurred".toList) ∧
      (clearError (runActions s (apiCallTrace outcome))).error = none ∧
      navbarBanner (clearError (runActions s (apiCallTrace outcome))) = none := by
  intro s outcome msg h
  rw [runActions_apiCall_failure s h]
  exact ⟨rfl, fun hmsg => by simp [jsOrStr, hmsg], rfl, rfl, rfl⟩

/-- C5 witness: a 404 response stores `'HTTP error! status: 404'`, the banner
shows it, and `clearError` clears it. -/
theorem apiCall_failure_error_banner_witness :
    thrownMessage (FetchOutcome.notOk 404 : FetchOutcome Nat) =
      some "HTTP error! status: 404".toList ∧
    (runActions (initialState : AppState Nat Nat Nat Nat)
        (apiCallTrace (FetchOutcome.notOk 404 : FetchOutcome Nat))).error =
      some (jsOrStr "HTTP error! status: 404".toList "An error occurred".toList) ∧
    navbarBanner (runActions (initialState : AppState Nat Nat Nat Nat)
        (apiCallTrace (FetchOutcome.notOk 404 : FetchOutcome Nat))) =
      some (jsOrStr "HTTP error! status: 404".toList "An error occurred".toList) ∧
    (clearError (runActions (initialState : AppState Nat Nat Nat Nat)
        (apiCallTrace (FetchOutcome.notOk 404 : FetchOutcome Nat)))).error = none :=
  ⟨by decide,
   (apiCall_failure_error_banner initialState (FetchOutcome.notOk 404)
      "HTTP error! status: 404".toList (by decide)).1,
   (apiCall_failure_error_banner initialState (FetchOutcome.notOk 404)
      "HTTP error! status: 404".toList (by decide)).2.2.1,
   (apiCall_failure_error_banner initialState (FetchOutcome.notOk 404)
      "HTTP error! status: 404".toList (by decide)).2.2.2.1⟩

/-- C6 counterexample: two failed requests (status 404 and status 500) store
different message strings, so the stored message is not one generic message
independent of the failure. -/
theorem error_message_varies_counterexample :
    (runActions (initialState : AppState Nat Nat Nat Nat)
        (apiCallTrace (FetchOutcome.notOk 404 : FetchOutcome Nat))).error ≠
      (runActions (initialState : AppState Nat Nat Nat Nat)
        (apiCallTrace (FetchOutcome.notOk 500 : FetchOutcome Nat))).error := by
  decide

/-- C6 amended: every failure funnels into the single error channel, but the
stored message varies with the failure: a non-ok response stores
`'HTTP error! status: <code>'` (embedding the HTTP status code), while a
rejected fetch or a body-parse failure stores the underlying error's message
(`'An error occurred'` only when that message is empty). -/
theorem error_message_by_failure_kind {A R M N D : Type} :
    ∀ (s : AppState A R M N) (status : Nat) (msg : JStr),
      (runActions s (apiCallTrace (FetchOutcome.notOk (D := D) status))).error =
        some ("HTTP error! status: ".toList ++ (toString status).toList) ∧
      (runActions s (apiCallTrace (FetchOutcome.reject (D := D) msg))).error =
        some (jsOrStr msg "An error occurred".toList) ∧
      (runActions s (apiCallTrace (FetchOutcome.jsonError (D := D) msg))).error =
        some (jsOrStr msg "An error occurred".toList) := by
  intro s status msg
  have hne : ("HTTP error! status: ".toList ++ (toString status).toList : JStr) ≠ [] := by
    intro hcontra
    exact absurd (List.append_eq_nil.mp hcontra).1 (by decide)
  refine ⟨?_, ?_, ?_⟩
  · rw [@runActions_apiCall_failure A R M N D s (FetchOutcome.notOk (D := D) status) _ rfl]
    simp [jsOrStr, hne]
  · rw [@runActions_apiCall_failure A R M N D s (FetchOutcome.reject (D := D) msg) _ rfl]
  · rw [@runActions_apiCall_failure A R M N D s (FetchOutcome.jsonError (D := D) msg) _ rfl]

/-- C7: when the underlying request of a getter fails (apiCall rethrows), the
data fields of the reducer state — `analyses`, `currentAnalysis`,
`repositories`, `coverageMappings`, `stats` — are exactly what they were
before the call; only `loading` and `error` may differ. -/
theorem getter_failure_preserves_data {A R M N : Type} :
    ∀ (s : AppState A R M N) (oa : FetchOutcome (List A))
      (og : FetchOutcome (List R)) (oc : FetchOutcome (List M))
      (om : FetchOutcome (PartialStats N)),
      apiCallResult oa = none → apiCallResult og = none →
      apiCallResult oc = none → apiCallResult om = none →
      dataFieldsEq s (runActions s (getAnalysesTrace oa)) ∧
      dataFieldsEq s (runActions s (getRepositoriesTrace og)) ∧
      dataFieldsEq s (runActions s (getCoverageMappingsTrace oc)) ∧
      dataFieldsEq s (runActions s (getMetricsTrace om)) := by
  intro s oa og oc om ha hg hc hm
  refine ⟨?_, ?_, ?_, ?_⟩
  · cases oa with
    | ok d => simp [apiCallResult] at ha
    | reject m => exact ⟨rfl, rfl, rfl, rfl, rfl⟩
    | notOk st => exact ⟨rfl, rfl, rfl, rfl, rfl⟩
    | jsonError m => exact ⟨rfl, rfl, rfl, rfl, rfl⟩
  · cases og with
    | ok d => simp [apiCallResult] at hg
    | reject m => exact ⟨rfl, rfl, rfl, rfl, rfl⟩
    | notOk st => exact ⟨rfl, rfl, rfl, rfl, rfl⟩
    | jsonError m => exact ⟨rfl, rfl, rfl, rfl, rfl⟩
  · cases oc with
    | ok d => simp [apiCallResult] at hc
    | reject m => exact ⟨rfl, rfl, rfl, rfl, rfl⟩
    | notOk st => exact ⟨rfl, rfl, rfl, rfl, rfl⟩
    | jsonError m => exact ⟨rfl, rfl, rfl, rfl, rfl⟩
  · cases om with
    | ok d => simp [apiCallResult] at hm
    | reject m => exact ⟨rfl, rfl, rfl, rfl, rfl⟩
    | notOk st => exact ⟨rfl, rfl, rfl, rfl, rfl⟩
    | jsonError m => exact ⟨rfl, rfl, rfl, rfl, rfl⟩

/-- C7 witness: a 500 response on `getAnalyses` leaves every data field of the
initial state unchanged. -/
theorem getter_failure_preserves_data_witness :
    apiCallResult (FetchOutcome.notOk 500 : FetchOutcome (List Nat)) = none ∧
    dataFieldsEq (initialState : AppState Nat Nat Nat Nat)
      (runActions initialState
        (getAnalysesTrace (FetchOutcome.notOk 500 : FetchOutcome (List Nat)))) :=
  ⟨rfl,
   (getter_failure_preserves_data initialState
      (FetchOutcome.notOk 500) (FetchOutcome.notOk 500) (FetchOutcome.notOk 500)
      (FetchOutcome.notOk 500) rfl rfl rfl rfl).1⟩

/-- C8: `apiCall` dispatches `SET_LOADING true` first and `CLEAR_ERROR` second,
before anything else; on an ok response the parsed body is the resolved value,
and a successful `getAnalyses` leaves the state with `analyses` set to the
parsed body, `loading` false and `error` null. -/
theorem apiCall_step_order_and_success_state {A R M N D : Type} :
    ∀ (s : AppState A R M N) (outcome : FetchOutcome D) (d : D) (data : List A),
      (apiCallTrace outcome : List (Action A R M N)).take 2 =
        [Action.setLoading true, Action.clearError] ∧
      apiCallResult (FetchOutcome.ok d) = some d ∧
      runActions s (getAnalysesTrace (FetchOutcome.ok data)) =
        { s with analyses := data, loading := false, error := none } := by
  intro s outcome d data
  refine ⟨?_, rfl, rfl⟩
  cases outcome <;> rfl

/-- C9: every reducer action touches only the state fields its case writes,
stated field by field, and any unhandled action type returns the state
unchanged. -/
theorem analysisReducer_frame {A R M N : Type} :
    ∀ (s : AppState A R M N) (b : Bool) (msg : JStr) (la : List A) (a : A)
      (ca : Option A) (lr : List R) (lc : List M) (p : PartialStats N)
      (ty : JStr),
      ((analysisReducer s (.setLoading b)).loading = b ∧
        (analysisReducer s (.setLoading b)).error = s.error ∧
        dataFieldsEq s (analysisReducer s (.setLoading b))) ∧
      ((analysisReducer s (.setError msg)).error = some msg ∧
        (analysisReducer s (.setError msg)).loading = false ∧
        dataFieldsEq s (analysisReducer s (.setError msg))) ∧
      ((analysisReducer s .clearError).error = none ∧
        (analysisReducer s .clearError).loading = s.loading ∧
        dataFieldsEq s (analysisReducer s .clearError)) ∧
      ((analysisReducer s (.setAnalyses la)).analyses = la ∧
        (analysisReducer s (.setAnalyses la)).currentAnalysis = s.currentAnalysis ∧
        (analysisReducer s (.setAnalyses la)).loading = s.loading ∧
        (analysisReducer s (.setAnalyses la)).error = s.error ∧
        (analysisReducer s (.setAnalyses la)).repositories = s.repositories ∧
        (analysisReducer s (.setAnalyses la)).coverageMappings = s.coverageMappings ∧
        (analysisReducer s (.setAnalyses la)).stats = s.stats) ∧
      ((analysisReducer s (.addAnalysis a)).analyses = a :: s.analyses ∧
        (analysisReducer s (.addAnalysis a)).currentAnalysis = some a ∧
        (analysisReducer s (.addAnalysis a)).loading = s.loading ∧
        (analysisReducer s (.addAnalysis a)).error = s.error ∧
        (analysisReducer s (.addAnalysis a)).repositories = s.repositories ∧
        (analysisReducer s (.addAnalysis a)).coverageMappings = s.coverageMappings ∧
        (analysisReducer s (.addAnalysis a)).stats = s.stats) ∧
      ((analysisReducer s (.setCurrentAnalysis ca)).currentAnalysis = ca ∧
        (analysisReducer s (.setCurrentAnalysis ca)).analyses = s.analyses ∧
        (analysisReducer s (.setCurrentAnalysis ca)).loading = s.loading ∧
        (analysisReducer s (.setCurrentAnalysis ca)).error = s.error ∧
        (analysisReducer s (.setCurrentAnalysis ca)).repositories = s.repositories ∧
        (analysisReducer s (.setCurrentAnalysis ca)).coverageMappings =
          s.coverageMappings ∧
        (analysisReducer s (.setCurrentAnalysis ca)).stats = s.stats) ∧
      ((analysisReducer s (.setRepositories lr)).repositories = lr ∧
        (analysisReducer s (.setRepositories lr)).analyses = s.analyses ∧
        (analysisReducer s (.setRepositories lr)).currentAnalysis =
          s.currentAnalysis ∧
        (analysisReducer s (.setRepositories lr)).loading = s.loading ∧
        (analysisReducer s (.setRepositories lr)).error = s.error ∧
        (analysisReducer s (.setRepositories lr)).coverageMappings =
          s.coverageMappings ∧
        (analysisReducer s (.setRepositories lr)).stats = s.stats) ∧
      ((analysisReducer s (.setCoverageMappings lc)).coverageMappings = lc ∧
        (analysisReducer s (.setCoverageMappings lc)).analyses = s.analyses ∧
        (analysisReducer s (.setCoverageMappings lc)).currentAnalysis =
          s.currentAnalysis ∧
        (analysisReducer s (.setCoverageMappings lc)).loading = s.loading ∧
        (analysisReducer s (.setCoverageMappings lc)).error = s.error ∧
        (analysisReducer s (.setCoverageMappings lc)).repositories =
          s.repositories ∧
        (analysisReducer s (.setCoverageMappings lc)).stats = s.stats) ∧
      ((analysisReducer s (.updateStats p)).stats = mergeStats s.stats p ∧
        (analysisReducer s (.updateStats p)).analyses = s.analyses ∧
        (analysisReducer s (.updateStats p)).currentAnalysis = s.currentAnalysis ∧
        (analysisReducer s (.updateStats p)).loading = s.loading ∧
        (analysisReducer s (.updateStats p)).error = s.error ∧
        (analysisReducer s (.updateStats p)).repositories = s.repositories ∧
        (analysisReducer s (.updateStats p)).coverageMappings =
          s.coverageMappings) ∧
      analysisReducer s (.unknown ty) = s := by
  intro s b msg la a ca lr lc p ty
  and_intros <;> rfl

end AiImpact
